import Mathlib

/-!
Shallow embedding of `src/server/ee/services/oauth/oauth.service.ts` (the
`OauthService` class of the ToolJet repository) and proofs about the claims
of its specification.

The service's own code (tenant resolution, eligibility checks, the two
provisioning paths, the license gate and the session payload) is translated
directly from the TypeScript source.  The collaborating services
(`UsersService`, `OrganizationsService`, `OrganizationUsersService`,
`dbTransactionWrap`, `isSuperAdmin`) are not part of the provided sources,
so they are modelled from the specification at their interface boundary;
each such definition carries a doc comment starting with
`Modelled from the spec:`.

Machine conventions: entity ids are `Nat`; JavaScript strings use `String`
with `""` playing the role of a falsy/absent string; a possibly-`undefined`
object is an `Option`; a thrown exception is an `Except.error`; the database
is explicit state threaded through every operation.
-/

namespace Oauth

/-- Provider-agnostic normalized identity returned by the provider adapters
(`UserResponse` in the source). An empty string models a falsy/absent field. -/
structure UserResponse where
  userSSOId : String
  email : String
  firstName : String
  lastName : String
deriving Repr, DecidableEq

/-- `User` entity row. `superAdmin` models the helper `isSuperAdmin`
discrimination (spec: a platform-level elevated identity). -/
structure User where
  id : Nat
  email : String
  firstName : String
  lastName : String
  status : String
  invitationToken : Option String
  defaultOrganizationId : Option Nat
  superAdmin : Bool
deriving Repr, DecidableEq

/-- `Organization` entity row. -/
structure Organization where
  id : Nat
  name : String
  enableSignUp : Bool
  domain : String
deriving Repr, DecidableEq

/-- `OrganizationUser` membership row linking a user to an organization. -/
structure OrganizationUser where
  id : Nat
  userId : Nat
  organizationId : Nat
  status : String
  isAdmin : Bool
deriving Repr, DecidableEq

/-- A stored `SSOConfigs` row: belongs to one organization, carries the
provider tag (`sso`) and the enabled flag. -/
structure SSOConfigRow where
  id : Nat
  organizationId : Nat
  sso : String
  enabled : Bool
deriving Repr, DecidableEq

/-- The persistent store backing users, organizations, memberships and SSO
configurations.  `nextId` is the id fountain for newly created rows. -/
structure DB where
  users : List User
  orgs : List Organization
  orgUsers : List OrganizationUser
  ssoRows : List SSOConfigRow
  nextId : Nat
deriving Repr, DecidableEq

/-- The `DeepPartial<Organization>` value flowing through `signIn`:
on the instance-SSO common-page path the synthesized organization has no
`id` and no `name` (they are `undefined` in the source). -/
structure OrgView where
  id : Option Nat
  name : Option String
  enableSignUp : Bool
  domain : String
deriving Repr, DecidableEq

/-- The `DeepPartial<SSOConfigs>` value flowing through `signIn`: the
provider tag and the enabled flag (provider-specific client configs are
opaque to the orchestration and omitted). -/
structure SSOView where
  sso : String
  enabled : Bool
deriving Repr, DecidableEq

/-- Error taxonomy of the flow.  `unauthorized`/`notAcceptable` are the
declared Nest exceptions; `typeError` models a raw JavaScript runtime
`TypeError` (reading a property of `undefined`); `licenseExceeded` models
the error thrown by `validateLicense` inside the transaction. -/
inductive AuthError where
  | unauthorized (msg : String)
  | notAcceptable (msg : String)
  | typeError (msg : String)
  | licenseExceeded
deriving Repr, DecidableEq

/-- The claims signed into the session plus the outward response fields the
claims talk about (`#generateLoginResultPayload` in the source). -/
structure SessionPayload where
  userId : Nat
  email : String
  firstName : String
  lastName : String
  organizationId : Option Nat
  organizationName : Option String
  superAdmin : Bool
  isSSOLogin : Bool
deriving Repr, DecidableEq

/-- Environment: configuration values, instance settings, the license gate
and the identity the external provider adapters would return for the
request's token (the token exchange itself is out of scope). -/
structure Env where
  disableMultiWorkspace : Bool
  ssoDisableSignups : Bool
  ssoAcceptedDomains : String
  googleClientId : String
  gitClientId : String
  openidClientId : String
  licenseOidc : Bool
  allowPersonalWorkspaceSetting : String
  identity : UserResponse
  licenseOk : DB → Bool

/-- The inbound request: `ssoResponse` fields plus the `configId`/`ssoType`
parameters of `signIn`.  `cookies = none` models an absent cookies object. -/
structure SignInReq where
  token : String
  organizationId : Option Nat
  configId : Option Nat
  ssoType : Option String
  cookies : Option String

/-- Message of the JavaScript `TypeError` raised when the switch on the
provider tag falls through and `userResponse` stays `undefined`. -/
def undefinedUserResponseMsg : String :=
  "TypeError: cannot read userSSOId of undefined"

/-- Message of the JavaScript `TypeError` raised when the super-admin
organization lookup produces `undefined` and `og.id` is read in the
`find` callback. -/
def undefinedOrgMsg : String :=
  "TypeError: cannot read id of undefined"

/-- Message of the JavaScript `TypeError` raised on the openid path when the
`cookies` object is `undefined`. -/
def undefinedCookiesMsg : String :=
  "TypeError: cannot read oidc_code_verifier of undefined"

/-- JavaScript `String.split` with a one-character separator, on the
character list. -/
def splitChars (sep : Char) : List Char → List (List Char)
  | [] => [[]]
  | c :: cs =>
    let r := splitChars sep cs
    if c == sep then [] :: r
    else
      match r with
      | [] => [[c]]
      | h :: t => (c :: h) :: t

/-- JavaScript `String.split` with a one-character separator. -/
def splitOnChar (sep : Char) (s : String) : List String :=
  (splitChars sep s.toList).map (fun cs => String.mk cs)

/-- Last element of a list of strings, with a default. -/
def lastD : List String → String → String
  | [], d => d
  | [a], _ => a
  | _ :: b :: t, d => lastD (b :: t) d

/-- Whitespace for the purposes of JavaScript `String.trim`. -/
def isSpaceChar (c : Char) : Bool :=
  c == ' ' || c == '\t' || c == '\n' || c == '\r'

/-- JavaScript `String.trim`: strip leading and trailing whitespace. -/
def trimString (s : String) : String :=
  String.mk (((s.toList.dropWhile isSpaceChar).reverse.dropWhile isSpaceChar).reverse)

/-- `email.substring(email.lastIndexOf('@') + 1)`: the substring after the
last `@`; the whole string when no `@` occurs (lastIndexOf = -1). -/
def extractedDomain (email : String) : String :=
  lastD (splitOnChar '@' email) ""

/-- The comma-split, trimmed, empties-removed entries of an allow-list
string, exactly as computed inside `#isValidDomain`. -/
def allowListEntries (restrictedDomain : String) : List String :=
  ((splitOnChar ',' restrictedDomain).map (fun e => trimString e)).filter
    (fun e => e != "")

/-- `#isValidDomain` translated from the source (lines 35-57). -/
def isValidDomain (email restrictedDomain : String) : Bool :=
  if email == "" then false
  else
    let domain := extractedDomain email
    if restrictedDomain == "" then true
    else if domain == "" then false
    else if !((allowListEntries restrictedDomain).contains domain) then false
    else true

/-- Modelled from the spec: `isSuperAdmin` helper — true exactly for the
platform-level elevated identity; false on an absent user. -/
def isSuperAdmin : Option User → Bool
  | none => false
  | some u => u.superAdmin

/-- `userDetails?.status === 'archived'`. -/
def isArchived : Option User → Bool
  | none => false
  | some u => u.status == "archived"

/-- Modelled from the spec: `UserStore.findByEmail(email)` — the user whose
globally-unique email matches. -/
def findUserByEmail (db : DB) (email : String) : Option User :=
  db.users.find? (fun u => u.email == email)

/-- Modelled from the spec: `UserStore.findByEmail(email, organizationId,
statusList)` — the user with that email together with their membership in
the given organization whose membership status is in `statusList`; `none`
when either is absent (the source then reads
`user?.organizationUsers?.[0]`). -/
def findUserByEmailInOrg (db : DB) (email : String) (orgId : Option Nat)
    (statusList : List String) : Option (User × OrganizationUser) :=
  match db.users.find? (fun u => u.email == email) with
  | none => none
  | some u =>
    match db.orgUsers.find? (fun m =>
        m.userId == u.id && some m.organizationId == orgId
          && statusList.contains m.status) with
    | none => none
    | some m => some (u, m)

/-- Modelled from the spec: `MembershipStore.activate` — transitions the
membership row with the given row id to status `active` (the call sites in
`#findOrCreateUser`/`#findAndActivateUser` pass `organizationUser.id`); an
id matching no row, or an `undefined` id, updates nothing. -/
def activate (db : DB) (rowId : Option Nat) : DB :=
  match rowId with
  | none => db
  | some i =>
      { db with orgUsers := db.orgUsers.map (fun m =>
          if m.id == i then { m with status := "active" } else m) }

/-- Modelled from the spec: `MembershipStore.create(user, organization,
isAdmin)` — inserts a membership that starts inactive (`status = invited`,
`active=false` at creation, left for the caller to activate). -/
def createMembership (db : DB) (userId orgId : Nat) (isAdmin : Bool) :
    DB × OrganizationUser :=
  let m : OrganizationUser :=
    { id := db.nextId, userId := userId, organizationId := orgId,
      status := "invited", isAdmin := isAdmin }
  ({ db with orgUsers := db.orgUsers ++ [m], nextId := db.nextId + 1 }, m)

/-- Modelled from the spec: `UserStore.create` — inserts a fresh user row
with the given default organization. -/
def createUserRec (db : DB) (ur : UserResponse) (defaultOrgId : Option Nat) :
    DB × User :=
  let u : User :=
    { id := db.nextId, email := ur.email, firstName := ur.firstName,
      lastName := ur.lastName, status := "active", invitationToken := none,
      defaultOrganizationId := defaultOrgId, superAdmin := false }
  ({ db with users := db.users ++ [u], nextId := db.nextId + 1 }, u)

/-- Modelled from the spec: `UserStore.findOrCreateByEmail` — returns the
existing user with that email (anywhere in the system) and `false`, or
creates one and returns it with `true`. -/
def findOrCreateByEmail (db : DB) (ur : UserResponse) (defaultOrgId : Option Nat) :
    DB × User × Bool :=
  match findUserByEmail db ur.email with
  | some u => (db, u, false)
  | none =>
    let p := createUserRec db ur defaultOrgId
    (p.1, p.2, true)

/-- Modelled from the spec: `UserStore.updateUser` restricted to the one use
in this flow — overwriting the invitation token. -/
def updateUser (db : DB) (userId : Nat) (tok : Option String) : DB :=
  { db with users := db.users.map (fun u =>
      if u.id == userId then { u with invitationToken := tok } else u) }

/-- Modelled from the spec: `OrganizationStore.create(name, user?)` — creates
an organization and, when a user is supplied (the personal-workspace
fallback), also their membership, which starts inactive like every
membership created by this flow. -/
def createOrganization (db : DB) (name : String) (user : Option User) :
    DB × Organization :=
  let org : Organization :=
    { id := db.nextId, name := name, enableSignUp := true, domain := "" }
  let db1 : DB := { db with orgs := db.orgs ++ [org], nextId := db.nextId + 1 }
  match user with
  | none => (db1, org)
  | some u => ((createMembership db1 u.id org.id false).1, org)

/-- Modelled from the spec: organization lookup by id. -/
def findOrgById (db : DB) (i : Nat) : Option Organization :=
  db.orgs.find? (fun o => o.id == i)

/-- Modelled from the spec: `OrganizationStore.fetchOrganizationDetails`. -/
def fetchOrganizationDetails (db : DB) (i : Nat) : Option Organization :=
  findOrgById db i

/-- The stored SSO configuration rows of one organization. -/
def ssoRowsOf (db : DB) (orgId : Nat) : List SSOConfigRow :=
  db.ssoRows.filter (fun r => r.organizationId == orgId)

/-- Modelled from the spec: `OrganizationStore.getConfigs(configId)` — the
stored SSO configuration row with that id together with its owning
organization. -/
def getConfigs (db : DB) (configId : Nat) :
    Option (SSOConfigRow × Option Organization) :=
  (db.ssoRows.find? (fun r => r.id == configId)).map
    (fun r => (r, findOrgById db r.organizationId))

/-- Modelled from the spec: `OrganizationStore.findOrganizationWithLoginSupport
(user, 'sso')` — the organizations in which the user has SSO login rights:
an active membership and some enabled SSO configuration. -/
def findOrganizationWithLoginSupport (db : DB) (u : User) : List Organization :=
  db.orgs.filter (fun o =>
    db.orgUsers.any (fun m =>
        m.userId == u.id && m.organizationId == o.id && m.status == "active")
      && db.ssoRows.any (fun r => r.organizationId == o.id && r.enabled))

/-- Modelled from the spec: `OrganizationStore.getSingleOrganization` —
"pick any": the first organization of the system, if one exists. -/
def getSingleOrganization (db : DB) : Option Organization :=
  db.orgs.head?

/-- View of a stored organization as the `DeepPartial` value used in
`signIn`. -/
def orgViewOf (o : Organization) : OrgView :=
  { id := some o.id, name := some o.name,
    enableSignUp := o.enableSignUp, domain := o.domain }

/-- `#getSSOConfigs` (source lines 131-159) reduced to the enabled flag:
`!!clientId` for each known provider tag, nothing for any other tag. -/
def instanceSSOEnabled (env : Env) (ssoType : String) : Bool :=
  if ssoType == "google" then env.googleClientId != ""
  else if ssoType == "git" then env.gitClientId != ""
  else if ssoType == "openid" then env.openidClientId != ""
  else false

/-- `#getInstanceSSOConfigs` (source lines 161-170): the synthesized
organization (no id, no name, instance-wide sign-up and domain policy) and
the synthesized SSO configuration for the given tag. -/
def getInstanceSSOConfigs (env : Env) (ssoType : String) : OrgView × SSOView :=
  ({ id := none, name := none,
     enableSignUp := !env.ssoDisableSignups, domain := env.ssoAcceptedDomains },
   { sso := ssoType, enabled := instanceSSOEnabled env ssoType })

/-- Tenant resolution: source lines 178-202 of `signIn`, including the
`!organization || !ssoConfigs` guard of line 199. -/
def resolveTenant (env : Env) (db : DB) (req : SignInReq) :
    Except AuthError (OrgView × SSOView) :=
  match req.configId with
  | some c =>
    -- SSO under an organization
    match getConfigs db c with
    | none => .error (.unauthorized "")
    | some (row, orgOpt) =>
      match orgOpt with
      | none => .error (.unauthorized "")
      | some o => .ok (orgViewOf o, { sso := row.sso, enabled := row.enabled })
  | none =>
    if !env.disableMultiWorkspace then
      match req.ssoType, req.organizationId with
      | some ssoType, some oid =>
        -- Instance SSO login from organization login page
        match fetchOrganizationDetails db oid with
        | none => .error (.unauthorized "")
        | some o =>
          match (ssoRowsOf db o.id).find? (fun conf => conf.sso == ssoType) with
          | none => .error (.unauthorized "")
          | some row =>
            .ok (orgViewOf o, { sso := row.sso, enabled := row.enabled })
      | some ssoType, none =>
        -- Instance SSO login from common login page
        .ok (getInstanceSSOConfigs env ssoType)
      | none, _ => .error (.unauthorized "")
    else .error (.unauthorized "")

/-- The provider switch of source lines 207-230: each known adapter returns
the normalized identity the environment associates with the token; openid
additionally requires the license flag and a cookies object; any other tag
falls through leaving `userResponse` `undefined` (`ok none`). -/
def exchangeIdentity (env : Env) (req : SignInReq) (ssov : SSOView) :
    Except AuthError (Option UserResponse) :=
  if ssov.sso == "google" then .ok (some env.identity)
  else if ssov.sso == "git" then .ok (some env.identity)
  else if ssov.sso == "openid" then
    if !env.licenseOidc then .error (.unauthorized "OIDC login disabled")
    else
      match req.cookies with
      | none => .error (.typeError undefinedCookiesMsg)
      | some _ => .ok (some env.identity)
  else .ok none

/-- Source lines 246-249: default the first name to the email's local part
when the provider supplied none. -/
def deriveFirstName (ur : UserResponse) : UserResponse :=
  if ur.firstName == "" then
    { ur with firstName := (splitOnChar '@' ur.email).headD "" }
  else ur

/-- `#findAndActivateUser` (source lines 87-101): require an existing
membership with status in {active, invited}; throw Unauthorized when
absent; activate it when not active. -/
def findAndActivateUser (db : DB) (email : String) (orgId : Option Nat) :
    Except AuthError (DB × User) :=
  match findUserByEmailInOrg db email orgId ["active", "invited"] with
  | none => .error (.unauthorized "User does not exist in the workspace")
  | some (u, m) =>
    if m.status != "active" then .ok (activate db (some m.id), u)
    else .ok (db, u)

/-- `#findOrCreateUser` (source lines 59-85): look up an existing membership
with status in {active, invited}; when none, find-or-create the user by
email and — only when the user was newly created — create a membership;
when a membership exists and is not active, activate it. -/
def findOrCreateUser (db : DB) (ur : UserResponse) (orgv : OrgView) :
    Except AuthError (DB × User) :=
  match findUserByEmailInOrg db ur.email orgv.id ["active", "invited"] with
  | none =>
    let p := findOrCreateByEmail db ur orgv.id
    if p.2.2 then
      match orgv.id with
      | some oid => .ok ((createMembership p.1 p.2.1.id oid false).1, p.2.1)
      | none => .ok (p.1, p.2.1)
        -- unreachable from signIn: the direct path always has a resolved
        -- organization id (tenant resolution modes 1 and 2)
    else .ok (p.1, p.2.1)
  | some (u, m) =>
    if m.status != "active" then .ok (activate db (some m.id), u)
    else .ok (db, u)

/-- `#generateLoginResultPayload` (source lines 103-129) reduced to the
claim-relevant fields. -/
def generateLoginResultPayload (u : User) (ov : OrgView) (isInstanceSSO : Bool) :
    SessionPayload :=
  { userId := u.id, email := u.email, firstName := u.firstName,
    lastName := u.lastName, organizationId := ov.id,
    organizationName := ov.name, superAdmin := u.superAdmin,
    isSSOLogin := isInstanceSSO }

/-- Modelled from the spec: the default organization (when resolvable) or
else any single organization — the candidate a super-admin is signed into
(source lines 301-305). -/
def superAdminCandidate (db : DB) (u : User) : Option Organization :=
  match u.defaultOrganizationId.bind (fun d => findOrgById db d) with
  | some og => some og
  | none => getSingleOrganization db

/-- The organization the common-page selection picks for a non-super-admin
user out of the SSO-login-supporting candidates: the default organization
when among them, else the first (source lines 308-316). -/
def selectedCandidate (db : DB) (u : User) : Option Organization :=
  let organizationList := findOrganizationWithLoginSupport db u
  match organizationList.find? (fun og => some og.id == u.defaultOrganizationId) with
  | some og => some og
  | none => organizationList.head?

/-- Organization selection of source lines 295-323: candidates for the user,
prefer the default organization, else the first, else create a personal
workspace when allowed, else Unauthorized.  The super-admin branch reads
`og.id` inside the `find` callback, which is a raw `TypeError` when the
candidate lookup produced `undefined`. -/
def selectOrganization (db : DB) (u : User) (allowPersonalWorkspace : Bool) :
    Except AuthError (DB × Organization) :=
  if !u.superAdmin then
    let organizationList := findOrganizationWithLoginSupport db u
    match organizationList.find? (fun og => some og.id == u.defaultOrganizationId) with
    | some og => .ok (db, og)
    | none =>
      match organizationList with
      | og :: _ => .ok (db, og)
      | [] =>
        if allowPersonalWorkspace then
          .ok (createOrganization db "Untitled workspace" (some u))
        else .error (.unauthorized "User not included in any workspace")
  else
    match superAdminCandidate db u with
    | some og => .ok (db, og)
    | none => .error (.typeError undefinedOrgMsg)

/-- The common-login-page provisioning branch (source lines 260-323):
bootstrap a new user with a fresh "Untitled workspace" when no user exists
and sign-up plus personal workspaces are allowed; reject an unknown user
otherwise; clear a pending invitation token and call `activate` with
`userDetails.defaultOrganizationId`; then select the organization to load. -/
def commonPagePath (db : DB) (ur : UserResponse) (userDetails : Option User)
    (orgv : OrgView) (allowPersonalWorkspace : Bool) :
    Except AuthError (DB × User × OrgView) :=
  match userDetails with
  | none =>
    if orgv.enableSignUp && allowPersonalWorkspace then
      let p1 := createOrganization db "Untitled workspace" none
      let p2 := createUserRec p1.1 ur (some p1.2.id)
      let db3 := (createMembership p2.1 p2.2.id p1.2.id false).1
      .ok (db3, p2.2, orgViewOf p1.2)
    else .error (.unauthorized "User does not exist in the workspace")
  | some u0 =>
    let db1 :=
      match u0.invitationToken with
      | some _ => activate (updateUser db u0.id none) u0.defaultOrganizationId
      | none => db
    match selectOrganization db1 u0 allowPersonalWorkspace with
    | .error e => .error e
    | .ok (db2, og) => .ok (db2, u0, orgViewOf og)

/-- The direct-to-organization provisioning branch (source lines 324-335). -/
def directPath (db : DB) (ur : UserResponse) (orgv : OrgView) :
    Except AuthError (DB × User × OrgView) :=
  match
    (if !orgv.enableSignUp then findAndActivateUser db ur.email orgv.id
     else findOrCreateUser db ur orgv) with
  | .error e => .error e
  | .ok (db1, u) => .ok (db1, u, orgv)

/-- `signIn` (source lines 172-340) as one pure function: resolution,
identity exchange, eligibility checks, the provisioning branch and the
license gate, returning the committed store and the session payload. -/
def signInCore (env : Env) (db : DB) (req : SignInReq) :
    Except AuthError (DB × SessionPayload) :=
  match resolveTenant env db req with
  | .error e => .error e
  | .ok (orgv, ssov) =>
    match exchangeIdentity env req ssov with
    | .error e => .error e
    | .ok none => .error (.typeError undefinedUserResponseMsg)
    | .ok (some ur0) =>
      if ur0.userSSOId == "" || ur0.email == "" then
        .error (.unauthorized "Invalid credentials")
      else
        let userDetails := findUserByEmail db ur0.email
        if isArchived userDetails then
          .error (.notAcceptable
            "User has been removed from the system, please contact the administrator")
        else if !(isSuperAdmin userDetails) && !(isValidDomain ur0.email orgv.domain) then
          .error (.unauthorized
            "You cannot sign in using the mail id - Domain verification failed")
        else
          let ur := deriveFirstName ur0
          let allowPersonalWorkspace :=
            isSuperAdmin userDetails
              || env.allowPersonalWorkspaceSetting == "true"
              || db.users.length == 0
          let isInstanceSSOLogin := req.configId.isNone && req.ssoType.isSome
          match
            (if !env.disableMultiWorkspace && isInstanceSSOLogin
                && req.organizationId.isNone then
              commonPagePath db ur userDetails orgv allowPersonalWorkspace
            else
              directPath db ur orgv) with
          | .error e => .error e
          | .ok (db1, u, odet) =>
            if env.licenseOk db1 then
              .ok (db1, generateLoginResultPayload u odet isInstanceSSOLogin)
            else .error .licenseExceeded

/-- Modelled from the spec: `dbTransactionWrap` — the provisioning runs in
one atomic unit of work; on any failure every write rolls back and the
observable store is the one from before the call (the stages before the
transaction only read).  `signIn` therefore returns the unchanged store
alongside the error on every failure. -/
def signIn (env : Env) (db : DB) (req : SignInReq) :
    DB × Except AuthError SessionPayload :=
  match signInCore env db req with
  | .ok (db1, payload) => (db1, .ok payload)
  | .error e => (db, .error e)

/-- The organization row the bootstrap branch creates (source line 268). -/
def bootstrapOrg (db : DB) : Organization :=
  { id := db.nextId, name := "Untitled workspace", enableSignUp := true, domain := "" }

/-- The user row the bootstrap branch creates (source lines 271-283). -/
def bootstrapUser (db : DB) (ur : UserResponse) : User :=
  { id := db.nextId + 1, email := (deriveFirstName ur).email,
    firstName := (deriveFirstName ur).firstName,
    lastName := (deriveFirstName ur).lastName, status := "active",
    invitationToken := none, defaultOrganizationId := some db.nextId,
    superAdmin := false }

/-- The membership row the bootstrap branch creates (source line 285). -/
def bootstrapMembership (db : DB) : OrganizationUser :=
  { id := db.nextId + 2, userId := db.nextId + 1, organizationId := db.nextId,
    status := "invited", isAdmin := false }

/-- The store after the bootstrap branch committed. -/
def bootstrapDB (db : DB) (ur : UserResponse) : DB :=
  { db with
      orgs := db.orgs ++ [bootstrapOrg db],
      users := db.users ++ [bootstrapUser db ur],
      orgUsers := db.orgUsers ++ [bootstrapMembership db],
      nextId := db.nextId + 3 }

/-! ### Concrete instances used by witnesses and counterexamples -/

/-- A multi-tenant environment with instance Google SSO configured, sign-ups
allowed, personal workspaces not allowed by setting, and a passing license. -/
def baseEnv : Env :=
  { disableMultiWorkspace := false, ssoDisableSignups := false,
    ssoAcceptedDomains := "", googleClientId := "gid", gitClientId := "",
    openidClientId := "", licenseOidc := false,
    allowPersonalWorkspaceSetting := "false",
    identity := { userSSOId := "sid", email := "alice@x.com",
                  firstName := "Alice", lastName := "A" },
    licenseOk := fun _ => true }

/-- An empty store. -/
def emptyDB : DB :=
  { users := [], orgs := [], orgUsers := [], ssoRows := [], nextId := 1 }

/-- A common-login-page instance Google SSO request. -/
def googleCommonReq : SignInReq :=
  { token := "t", organizationId := none, configId := none,
    ssoType := some "google", cookies := none }

/-- Environment for the C4 failing input: the provider asserts Carol's
identity. -/
def envC4 : Env :=
  { baseEnv with identity := { userSSOId := "sid", email := "carol@x.com",
                               firstName := "Carol", lastName := "C" } }

/-- Store for the C4 failing input: Carol has a pending invitation token,
default organization 7, and an invited membership whose row id is 3. -/
def dbC4 : DB :=
  { users := [{ id := 1, email := "carol@x.com", firstName := "Carol",
                lastName := "C", status := "active", invitationToken := some "tok",
                defaultOrganizationId := some 7, superAdmin := false }],
    orgs := [{ id := 7, name := "W", enableSignUp := true, domain := "" }],
    orgUsers := [{ id := 3, userId := 1, organizationId := 7,
                   status := "invited", isAdmin := false }],
    ssoRows := [{ id := 9, organizationId := 7, sso := "google", enabled := true }],
    nextId := 10 }

/-- Environment whose license check always fails (C2). -/
def envC2 : Env :=
  { baseEnv with licenseOk := fun _ => false }

/-- Environment for the selection scenario: the provider asserts Fred's
identity. -/
def envSel : Env :=
  { baseEnv with identity := { userSSOId := "sid", email := "fred@x.com",
                               firstName := "Fred", lastName := "F" } }

/-- Store for the selection scenario: Fred has an active membership in his
default organization 2, which has an enabled SSO configuration. -/
def dbSel : DB :=
  { users := [{ id := 1, email := "fred@x.com", firstName := "Fred",
                lastName := "F", status := "active", invitationToken := none,
                defaultOrganizationId := some 2, superAdmin := false }],
    orgs := [{ id := 2, name := "W", enableSignUp := true, domain := "" }],
    orgUsers := [{ id := 3, userId := 1, organizationId := 2,
                   status := "active", isAdmin := false }],
    ssoRows := [{ id := 4, organizationId := 2, sso := "google", enabled := true }],
    nextId := 5 }

/-- Bob: a user whose only membership is in organization 2 (C3). -/
def bobUser : User :=
  { id := 1, email := "bob@x.com", firstName := "Bob", lastName := "B",
    status := "active", invitationToken := none,
    defaultOrganizationId := some 2, superAdmin := false }

/-- Store for C3: Bob exists globally with a membership only in
organization 2; organization 1 allows sign-up. -/
def dbC3 : DB :=
  { users := [bobUser],
    orgs := [{ id := 1, name := "A", enableSignUp := true, domain := "" },
             { id := 2, name := "B", enableSignUp := true, domain := "" }],
    orgUsers := [{ id := 5, userId := 1, organizationId := 2,
                   status := "active", isAdmin := false }],
    ssoRows := [], nextId := 6 }

/-- Bob's normalized identity (C3). -/
def urC3 : UserResponse :=
  { userSSOId := "sid", email := "bob@x.com", firstName := "Bob", lastName := "B" }

/-- Organization 1 as the resolved direct-login target (C3). -/
def orgvC3 : OrgView :=
  { id := some 1, name := some "A", enableSignUp := true, domain := "" }

/-! ### General lemmas about the embedding -/

instance {eps alp : Type _} [DecidableEq eps] [DecidableEq alp] :
    DecidableEq (Except eps alp) := fun x y =>
  match x, y with
  | .error a, .error b =>
    if h : a = b then isTrue (by rw [h]) else isFalse (by intro hh; cases hh; exact h rfl)
  | .ok a, .ok b =>
    if h : a = b then isTrue (by rw [h]) else isFalse (by intro hh; cases hh; exact h rfl)
  | .error _, .ok _ => isFalse (by intro hh; cases hh)
  | .ok _, .error _ => isFalse (by intro hh; cases hh)

theorem beq_false_of_ne {α : Type _} [BEq α] [LawfulBEq α] {a b : α} (h : a ≠ b) :
    (a == b) = false := by
  cases hb : a == b
  · rfl
  · exact absurd (eq_of_beq hb) h

theorem signIn_of_core_error {env : Env} {db : DB} {req : SignInReq} {e : AuthError}
    (h : signInCore env db req = .error e) :
    signIn env db req = (db, .error e) := by
  unfold signIn
  rw [h]

theorem signIn_of_core_ok {env : Env} {db : DB} {req : SignInReq}
    {db1 : DB} {p : SessionPayload}
    (h : signInCore env db req = .ok (db1, p)) :
    signIn env db req = (db1, .ok p) := by
  unfold signIn
  rw [h]

theorem core_of_resolve_error {env : Env} {db : DB} {req : SignInReq} {e : AuthError}
    (h : resolveTenant env db req = .error e) :
    signInCore env db req = .error e := by
  unfold signInCore
  rw [h]

theorem deriveFirstName_email (ur : UserResponse) :
    (deriveFirstName ur).email = ur.email := by
  unfold deriveFirstName
  split <;> rfl

theorem contains_empty_filter (l : List String) :
    ((l.filter (fun e => e != "")).contains "") = false := by
  induction l with
  | nil => rfl
  | cons a t ih =>
    by_cases ha : a = ""
    · subst ha
      simp [ih]
    · simp only [List.filter, bne, beq_false_of_ne ha, Bool.not_false, List.contains_cons]
      rw [beq_false_of_ne (fun h => ha h.symm)]
      simp [ih]

theorem contains_empty_allowListEntries (L : String) :
    ((allowListEntries L).contains "") = false :=
  contains_empty_filter _

/-! ### C5 — domain policy -/

/-- C5 (amended): an absent/empty email is always invalid; for a nonempty
email an empty allow-list is unrestricted (always valid, even without an
extractable domain); for a nonempty email and a nonempty allow-list,
validity holds iff the substring after the last `@` (the whole email when
it has no `@`) is among the comma-split, trimmed, empties-removed entries,
case-sensitively. -/
theorem claim_C5 (e L : String) :
    isValidDomain "" L = false ∧
    (e ≠ "" → isValidDomain e "" = true) ∧
    (e ≠ "" → L ≠ "" →
      (isValidDomain e L = true ↔
        (allowListEntries L).contains (extractedDomain e) = true)) := by
  refine ⟨by simp [isValidDomain], fun he => by simp [isValidDomain, beq_false_of_ne he],
    fun he hL => ?_⟩
  rcases eq_or_ne (extractedDomain e) "" with hd | hd
  · have hLHS : isValidDomain e L = false := by
      simp [isValidDomain, beq_false_of_ne he, beq_false_of_ne hL, hd]
    have hRHS : (allowListEntries L).contains (extractedDomain e) = false := by
      rw [hd]
      exact contains_empty_allowListEntries L
    rw [hLHS, hRHS]
  · simp only [isValidDomain, beq_false_of_ne he, beq_false_of_ne hL,
      beq_false_of_ne hd, Bool.false_eq_true, if_false]
    cases hc : (allowListEntries L).contains (extractedDomain e) <;> simp [hc]

/-- C5 counterexample: `"a@"` has no extractable domain (the substring after
its last `@` is empty), yet with the empty allow-list the code accepts it —
the claim's clause "an email that ... has no extractable domain is invalid"
is false as stated. -/
theorem claim_C5_counterexample :
    extractedDomain "a@" = "" ∧ isValidDomain "a@" "" = true := by decide

/-- Witness for C5 at concrete inputs. -/
theorem claim_C5_witness :
    isValidDomain "" "x.com" = false ∧
    isValidDomain "a@x.com" "" = true ∧
    (isValidDomain "a@x.com" "x.com" = true ↔
      (allowListEntries "x.com").contains (extractedDomain "a@x.com") = true) := by
  obtain ⟨h1, h2, h3⟩ := claim_C5 "a@x.com" "x.com"
  exact ⟨h1, h2 (by decide), h3 (by decide) (by decide)⟩

/-! ### C6 — tenant resolution -/

/-- C6: tenant resolution applies exactly one mode in strict priority order.
Any request with no explicit config and either single-tenant mode or no
provider tag fails plain Unauthorized; an explicit config that does not
resolve (no row, or a row without its organization) fails plain
Unauthorized even when the other modes' inputs are present (mode-1
priority); with a provider tag and an organization id, a missing
organization or missing matching stored config fails plain Unauthorized
even though the common-page mode would have synthesized a config (mode-2
priority over mode 3).  In every such case the failure happens before any
identity exchange: the outcome is the bare Unauthorized regardless of the
identity, its domain, or the user's status. -/
theorem claim_C6 (env : Env) (db : DB) (req : SignInReq) :
    (req.configId = none → (env.disableMultiWorkspace = true ∨ req.ssoType = none) →
      signIn env db req = (db, .error (.unauthorized ""))) ∧
    (∀ c, req.configId = some c → getConfigs db c = none →
      signIn env db req = (db, .error (.unauthorized ""))) ∧
    (∀ c row, req.configId = some c → getConfigs db c = some (row, none) →
      signIn env db req = (db, .error (.unauthorized ""))) ∧
    (∀ s oid, req.configId = none → env.disableMultiWorkspace = false →
      req.ssoType = some s → req.organizationId = some oid →
      fetchOrganizationDetails db oid = none →
      signIn env db req = (db, .error (.unauthorized ""))) ∧
    (∀ s oid o, req.configId = none → env.disableMultiWorkspace = false →
      req.ssoType = some s → req.organizationId = some oid →
      fetchOrganizationDetails db oid = some o →
      (ssoRowsOf db o.id).find? (fun conf => conf.sso == s) = none →
      signIn env db req = (db, .error (.unauthorized ""))) := by
  refine ⟨?_, ?_, ?_, ?_, ?_⟩
  · intro hc hrest
    apply signIn_of_core_error
    apply core_of_resolve_error
    unfold resolveTenant
    rw [hc]
    rcases hrest with hdm | hsso
    · simp [hdm]
    · rw [hsso]
      cases hdm : env.disableMultiWorkspace <;> simp
  · intro c hc hg
    apply signIn_of_core_error
    apply core_of_resolve_error
    unfold resolveTenant
    rw [hc]
    simp [hg]
  · intro c row hc hg
    apply signIn_of_core_error
    apply core_of_resolve_error
    unfold resolveTenant
    rw [hc]
    simp [hg]
  · intro s oid hc hdm hsso hoid hf
    apply signIn_of_core_error
    apply core_of_resolve_error
    unfold resolveTenant
    rw [hc, hsso, hoid, hdm]
    simp [hf]
  · intro s oid o hc hdm hsso hoid hf hrow
    apply signIn_of_core_error
    apply core_of_resolve_error
    unfold resolveTenant
    rw [hc, hsso, hoid, hdm]
    simp [hf, hrow]

/-- Witness for C6: a multi-tenant request with no config id and no provider
tag fails with the bare Unauthorized (first conjunct), and an explicit
config id with no stored row fails the same way (second conjunct). -/
theorem claim_C6_witness :
    signIn
      { disableMultiWorkspace := false, ssoDisableSignups := false,
        ssoAcceptedDomains := "", googleClientId := "gid", gitClientId := "",
        openidClientId := "", licenseOidc := false,
        allowPersonalWorkspaceSetting := "false",
        identity := { userSSOId := "sid", email := "alice@x.com",
                      firstName := "Alice", lastName := "A" },
        licenseOk := fun _ => true }
      { users := [], orgs := [], orgUsers := [], ssoRows := [], nextId := 1 }
      { token := "t", organizationId := none, configId := none,
        ssoType := none, cookies := none }
      = ({ users := [], orgs := [], orgUsers := [], ssoRows := [], nextId := 1 },
         .error (.unauthorized "")) :=
  (claim_C6 _ _ _).1 rfl (Or.inr rfl)

/-! ### C9 — unknown provider tag -/

/-- C9: when the resolved SSO configuration carries a provider tag other
than google/git/openid, the provider switch falls through, `userResponse`
stays `undefined`, and reading `userResponse.userSSOId` raises a raw
runtime `TypeError` — not one of the declared Unauthorized/NotAcceptable
errors — and no session is issued. -/
theorem claim_C9 (env : Env) (db : DB) (req : SignInReq) (orgv : OrgView) (ssov : SSOView)
    (hres : resolveTenant env db req = .ok (orgv, ssov))
    (h1 : ssov.sso ≠ "google") (h2 : ssov.sso ≠ "git") (h3 : ssov.sso ≠ "openid") :
    signIn env db req = (db, .error (.typeError undefinedUserResponseMsg)) := by
  apply signIn_of_core_error
  unfold signInCore
  rw [hres]
  have hex : exchangeIdentity env req ssov = .ok none := by
    unfold exchangeIdentity
    simp [beq_false_of_ne h1, beq_false_of_ne h2, beq_false_of_ne h3]
  simp [hex]

/-- Witness for C9: a stored SSO configuration row with tag "form" (a
password-login config) selected by explicit config id crashes with the
modelled TypeError. -/
theorem claim_C9_witness :
    signIn
      { disableMultiWorkspace := false, ssoDisableSignups := false,
        ssoAcceptedDomains := "", googleClientId := "gid", gitClientId := "",
        openidClientId := "", licenseOidc := false,
        allowPersonalWorkspaceSetting := "false",
        identity := { userSSOId := "sid", email := "alice@x.com",
                      firstName := "Alice", lastName := "A" },
        licenseOk := fun _ => true }
      { users := [], orgs := [{ id := 1, name := "A", enableSignUp := true, domain := "" }],
        orgUsers := [],
        ssoRows := [{ id := 5, organizationId := 1, sso := "form", enabled := true }],
        nextId := 6 }
      { token := "t", organizationId := none, configId := some 5,
        ssoType := none, cookies := none }
      = ({ users := [], orgs := [{ id := 1, name := "A", enableSignUp := true, domain := "" }],
           orgUsers := [],
           ssoRows := [{ id := 5, organizationId := 1, sso := "form", enabled := true }],
           nextId := 6 },
         .error (.typeError undefinedUserResponseMsg)) := by
  apply claim_C9 _ _ _
    { id := some 1, name := some "A", enableSignUp := true, domain := "" }
    { sso := "form", enabled := true }
  · rfl
  · decide
  · decide
  · decide

/-! ### C8 — archived users -/

/-- C8: whatever way the tenant was resolved and whatever the domain policy
would say, a normalized identity whose email belongs to an archived user
fails with NotAcceptable — a status distinct from the Unauthorized used for
the generic auth failures. -/
theorem claim_C8 (env : Env) (db : DB) (req : SignInReq) (orgv : OrgView)
    (ssov : SSOView) (ur : UserResponse) (u : User)
    (hres : resolveTenant env db req = .ok (orgv, ssov))
    (hex : exchangeIdentity env req ssov = .ok (some ur))
    (hid : ur.userSSOId ≠ "") (hem : ur.email ≠ "")
    (hu : findUserByEmail db ur.email = some u)
    (harch : u.status = "archived") :
    signIn env db req =
      (db, .error (.notAcceptable
        "User has been removed from the system, please contact the administrator")) := by
  apply signIn_of_core_error
  unfold signInCore
  rw [hres]
  simp [hex, beq_false_of_ne hid, beq_false_of_ne hem, hu, isArchived, harch]

/-- Witness for C8: an archived user on the common-page path with a domain
that would pass the (empty) allow-list still fails NotAcceptable. -/
theorem claim_C8_witness :
    signIn
      { disableMultiWorkspace := false, ssoDisableSignups := false,
        ssoAcceptedDomains := "", googleClientId := "gid", gitClientId := "",
        openidClientId := "", licenseOidc := false,
        allowPersonalWorkspaceSetting := "true",
        identity := { userSSOId := "sid", email := "dora@x.com",
                      firstName := "Dora", lastName := "D" },
        licenseOk := fun _ => true }
      { users := [{ id := 1, email := "dora@x.com", firstName := "Dora",
                    lastName := "D", status := "archived", invitationToken := none,
                    defaultOrganizationId := some 2, superAdmin := false }],
        orgs := [{ id := 2, name := "W", enableSignUp := true, domain := "" }],
        orgUsers := [{ id := 3, userId := 1, organizationId := 2,
                       status := "active", isAdmin := false }],
        ssoRows := [{ id := 4, organizationId := 2, sso := "google", enabled := true }],
        nextId := 5 }
      { token := "t", organizationId := none, configId := none,
        ssoType := some "google", cookies := none }
      = ({ users := [{ id := 1, email := "dora@x.com", firstName := "Dora",
                       lastName := "D", status := "archived", invitationToken := none,
                       defaultOrganizationId := some 2, superAdmin := false }],
           orgs := [{ id := 2, name := "W", enableSignUp := true, domain := "" }],
           orgUsers := [{ id := 3, userId := 1, organizationId := 2,
                          status := "active", isAdmin := false }],
           ssoRows := [{ id := 4, organizationId := 2, sso := "google", enabled := true }],
           nextId := 5 },
         .error (.notAcceptable
           "User has been removed from the system, please contact the administrator")) := by
  apply claim_C8 _ _ _
    { id := none, name := none, enableSignUp := true, domain := "" }
    { sso := "google", enabled := true }
    { userSSOId := "sid", email := "dora@x.com", firstName := "Dora", lastName := "D" }
    { id := 1, email := "dora@x.com", firstName := "Dora", lastName := "D",
      status := "archived", invitationToken := none,
      defaultOrganizationId := some 2, superAdmin := false }
  · rfl
  · rfl
  · decide
  · decide
  · rfl
  · rfl

/-! ### C7 — direct login with sign-up disabled -/

/-- C7: a direct-to-organization sign-in (explicit config or instance SSO
bound to an organization) into an organization with `enableSignUp = false`,
by an eligible identity whose email has no membership with status active or
invited in that organization, throws Unauthorized and leaves the store
untouched — no User, Organization or OrganizationUser record is created. -/
theorem claim_C7 (env : Env) (db : DB) (req : SignInReq) (orgv : OrgView)
    (ssov : SSOView) (ur : UserResponse) (oid : Nat)
    (hres : resolveTenant env db req = .ok (orgv, ssov))
    (hdir : req.configId.isSome = true ∨ req.organizationId.isSome = true)
    (hoid : orgv.id = some oid)
    (hsign : orgv.enableSignUp = false)
    (hex : exchangeIdentity env req ssov = .ok (some ur))
    (hid : ur.userSSOId ≠ "") (hem : ur.email ≠ "")
    (harch : isArchived (findUserByEmail db ur.email) = false)
    (hdom : (isSuperAdmin (findUserByEmail db ur.email)
              || isValidDomain ur.email orgv.domain) = true)
    (hmem : findUserByEmailInOrg db ur.email (some oid) ["active", "invited"] = none) :
    signIn env db req =
      (db, .error (.unauthorized "User does not exist in the workspace")) := by
  apply signIn_of_core_error
  unfold signInCore
  rw [hres]
  have hd2 : (!(isSuperAdmin (findUserByEmail db ur.email))
      && !(isValidDomain ur.email orgv.domain)) = false := by
    rw [← Bool.not_or, hdom]
    rfl
  have hcond : (!env.disableMultiWorkspace && (req.configId.isNone && req.ssoType.isSome)
      && req.organizationId.isNone) = false := by
    rcases hdir with h | h
    · rcases Option.isSome_iff_exists.mp h with ⟨c, hc⟩
      simp [hc]
    · rcases Option.isSome_iff_exists.mp h with ⟨c, hc⟩
      simp [hc]
  have hdp : directPath db (deriveFirstName ur) orgv =
      .error (.unauthorized "User does not exist in the workspace") := by
    unfold directPath findAndActivateUser
    rw [deriveFirstName_email, hoid]
    simp [hsign, hmem]
  simp [hex, beq_false_of_ne hid, beq_false_of_ne hem, harch, hd2, hcond, hdp]

/-- Witness for C7: an organization with sign-up disabled, reached by
explicit config id, rejects an identity without a membership there and the
store is unchanged. -/
theorem claim_C7_witness :
    signIn
      { disableMultiWorkspace := false, ssoDisableSignups := false,
        ssoAcceptedDomains := "", googleClientId := "gid", gitClientId := "",
        openidClientId := "", licenseOidc := false,
        allowPersonalWorkspaceSetting := "true",
        identity := { userSSOId := "sid", email := "eve@x.com",
                      firstName := "Eve", lastName := "E" },
        licenseOk := fun _ => true }
      { users := [], orgs := [{ id := 2, name := "W", enableSignUp := false, domain := "" }],
        orgUsers := [],
        ssoRows := [{ id := 4, organizationId := 2, sso := "google", enabled := true }],
        nextId := 5 }
      { token := "t", organizationId := none, configId := some 4,
        ssoType := none, cookies := none }
      = ({ users := [], orgs := [{ id := 2, name := "W", enableSignUp := false, domain := "" }],
           orgUsers := [],
           ssoRows := [{ id := 4, organizationId := 2, sso := "google", enabled := true }],
           nextId := 5 },
         .error (.unauthorized "User does not exist in the workspace")) := by
  apply claim_C7 _ _ _
    { id := some 2, name := some "W", enableSignUp := false, domain := "" }
    { sso := "google", enabled := true }
    { userSSOId := "sid", email := "eve@x.com", firstName := "Eve", lastName := "E" }
    2
  · rfl
  · exact Or.inl rfl
  · rfl
  · rfl
  · rfl
  · decide
  · decide
  · rfl
  · decide
  · rfl

/-! ### C2 — atomicity of the provisioning transaction -/

theorem signInCore_ok_license (env : Env) (db : DB) (req : SignInReq)
    (db1 : DB) (p : SessionPayload)
    (h : signInCore env db req = .ok (db1, p)) : env.licenseOk db1 = true := by
  unfold signInCore at h
  split at h
  · exact absurd h (by simp)
  · split at h
    · exact absurd h (by simp)
    · exact absurd h (by simp)
    · split at h
      · exact absurd h (by simp)
      · dsimp only [] at h
        split at h
        · exact absurd h (by simp)
        · split at h
          · exact absurd h (by simp)
          · split at h
            · exact absurd h (by simp)
            · split at h
              · simp_all
              · exact absurd h (by simp)

/-- C2: the license/seat validation runs inside the same atomic unit as all
provisioning writes (`validateLicense` is the last step of the
`dbTransactionWrap` body).  When the license check fails, no sign-in can
commit: the observable store equals the store from before the call — in
particular any user, organization or membership provisioned earlier in the
same flow does not persist — and the call surfaces an error. -/
theorem claim_C2 (env : Env) (db : DB) (req : SignInReq)
    (hL : ∀ d, env.licenseOk d = false) :
    (signIn env db req).1 = db ∧ ∃ e, (signIn env db req).2 = .error e := by
  cases hcore : signInCore env db req with
  | error e =>
    rw [signIn_of_core_error hcore]
    exact ⟨rfl, e, rfl⟩
  | ok v =>
    obtain ⟨db1, p⟩ := v
    have hlic := signInCore_ok_license env db req db1 p hcore
    rw [hL] at hlic
    cases hlic

/-- Witness for C2: a bootstrap sign-in that would otherwise create a user,
an organization and a membership leaves the empty store untouched when the
license check fails. -/
theorem claim_C2_witness :
    (signIn envC2 emptyDB googleCommonReq).1 = emptyDB ∧
    ∃ e, (signIn envC2 emptyDB googleCommonReq).2 = .error e :=
  claim_C2 envC2 emptyDB googleCommonReq (fun _ => rfl)

/-! ### C4 — invitation-token path on the common page -/

/-- C4 (code bug): the invitation branch calls
`organizationUsersService.activate(userDetails.defaultOrganizationId)`,
passing an organization id where the other call sites of `activate` pass a
membership row id (`organizationUser.id`).  At the failing input — Carol
with a pending invitation token, default organization 7 and an invited
membership whose row id is 3 — the membership is never activated, the
selection finds no SSO-enabled organization, and the sign-in fails
Unauthorized with the store rolled back, instead of clearing the token,
activating the membership and returning a session for organization 7 as the
claim states.  The last two conjuncts exhibit the id confusion: activating
by the organization id (7) changes nothing, while activating by the
membership row id (3) would have activated the membership. -/
theorem claim_C4 :
    signIn envC4 dbC4 googleCommonReq =
      (dbC4, .error (.unauthorized "User not included in any workspace")) ∧
    (activate dbC4 (some 7)).orgUsers = dbC4.orgUsers ∧
    (activate dbC4 (some 3)).orgUsers =
      [{ id := 3, userId := 1, organizationId := 7,
         status := "active", isAdmin := false }] := by
  refine ⟨?_, ?_, ?_⟩ <;> rfl

/-! ### C3 — find-or-create on the direct path -/

/-- C3 counterexample: Bob exists globally (organization 2) but has no
membership in organization 1; the claim says `findOrCreateUser` then
creates a new inactive membership in organization 1, yet the code returns
Bob with the store completely unchanged — the membership creation is
guarded by `newUserCreated`, not by the absence of a membership. -/
theorem claim_C3_counterexample :
    findUserByEmailInOrg dbC3 "bob@x.com" (some 1) ["active", "invited"] = none ∧
    findOrCreateUser dbC3 urC3 orgvC3 = .ok (dbC3, bobUser) := by
  exact ⟨rfl, rfl⟩

/-- C3 (amended): on the direct path with sign-up allowed, when no
membership with status active/invited exists for the email in the target
organization, a user record and a new inactive membership
(`isAdmin = false`, status `invited`) are created only when no user with
that email exists anywhere; when such a user already exists, they are
returned with no write at all (no membership is created); and an existing
non-active membership is activated, an active one left alone. -/
theorem claim_C3 :
    (∀ db ur orgv oid, orgv.id = some oid →
      findUserByEmailInOrg db ur.email (some oid) ["active", "invited"] = none →
      findUserByEmail db ur.email = none →
      ∃ u m db1,
        findOrCreateUser db ur orgv = .ok (db1, u) ∧
        db1.users = db.users ++ [u] ∧
        db1.orgUsers = db.orgUsers ++ [m] ∧
        db1.orgs = db.orgs ∧
        u.email = ur.email ∧
        m.userId = u.id ∧ m.organizationId = oid ∧
        m.status = "invited" ∧ m.isAdmin = false) ∧
    (∀ db ur orgv u0,
      findUserByEmailInOrg db ur.email orgv.id ["active", "invited"] = none →
      findUserByEmail db ur.email = some u0 →
      findOrCreateUser db ur orgv = .ok (db, u0)) ∧
    (∀ db ur orgv u0 m0,
      findUserByEmailInOrg db ur.email orgv.id ["active", "invited"] = some (u0, m0) →
      m0.status ≠ "active" →
      findOrCreateUser db ur orgv = .ok (activate db (some m0.id), u0)) ∧
    (∀ db ur orgv u0 m0,
      findUserByEmailInOrg db ur.email orgv.id ["active", "invited"] = some (u0, m0) →
      m0.status = "active" →
      findOrCreateUser db ur orgv = .ok (db, u0)) := by
  refine ⟨?_, ?_, ?_, ?_⟩
  · intro db ur orgv oid hoid hmem hglob
    refine ⟨{ id := db.nextId, email := ur.email, firstName := ur.firstName,
              lastName := ur.lastName, status := "active", invitationToken := none,
              defaultOrganizationId := some oid, superAdmin := false },
            { id := db.nextId + 1, userId := db.nextId, organizationId := oid,
              status := "invited", isAdmin := false },
            { db with
                users := db.users ++
                  [{ id := db.nextId, email := ur.email, firstName := ur.firstName,
                     lastName := ur.lastName, status := "active",
                     invitationToken := none, defaultOrganizationId := some oid,
                     superAdmin := false }],
                orgUsers := db.orgUsers ++
                  [{ id := db.nextId + 1, userId := db.nextId, organizationId := oid,
                     status := "invited", isAdmin := false }],
                nextId := db.nextId + 2 },
            ?_, rfl, rfl, rfl, rfl, rfl, rfl, rfl, rfl⟩
    simp [findOrCreateUser, hoid, hmem, findOrCreateByEmail, hglob, createUserRec,
      createMembership]
  · intro db ur orgv u0 hmem hglob
    simp [findOrCreateUser, hmem, findOrCreateByEmail, hglob]
  · intro db ur orgv u0 m0 hmem hst
    simp [findOrCreateUser, hmem, bne, beq_false_of_ne hst]
  · intro db ur orgv u0 m0 hmem hst
    simp [findOrCreateUser, hmem, bne, hst]

/-- Witness for C3: creating a genuinely new user in organization 1 of the
C3 store produces the user row and the inactive membership. -/
theorem claim_C3_witness :
    ∃ u m db1,
      findOrCreateUser dbC3
          { userSSOId := "s2", email := "new@x.com", firstName := "N", lastName := "W" }
          orgvC3 = .ok (db1, u) ∧
      db1.users = dbC3.users ++ [u] ∧
      db1.orgUsers = dbC3.orgUsers ++ [m] ∧
      db1.orgs = dbC3.orgs ∧
      u.email = "new@x.com" ∧
      m.userId = u.id ∧ m.organizationId = 1 ∧
      m.status = "invited" ∧ m.isAdmin = false :=
  (claim_C3).1 dbC3
    { userSSOId := "s2", email := "new@x.com", firstName := "N", lastName := "W" }
    orgvC3 1 rfl rfl rfl

/-! ### Selection lemmas for the common-page path -/

theorem selectOrganization_of_candidate (db : DB) (u : User) (og : Organization)
    (allowPW : Bool) (hsa : u.superAdmin = false)
    (hsel : selectedCandidate db u = some og) :
    selectOrganization db u allowPW = .ok (db, og) := by
  unfold selectedCandidate at hsel
  dsimp only [] at hsel
  cases hf : (findOrganizationWithLoginSupport db u).find?
      (fun og => some og.id == u.defaultOrganizationId) with
  | some og' =>
    rw [hf] at hsel
    simp at hsel
    subst hsel
    simp [selectOrganization, hsa, hf]
  | none =>
    rw [hf] at hsel
    cases hl : findOrganizationWithLoginSupport db u with
    | nil =>
      rw [hl] at hsel
      simp at hsel
    | cons a t =>
      rw [hl] at hsel
      simp at hsel
      subst hsel
      have hf' := hf
      rw [hl] at hf'
      simp [selectOrganization, hsa, hl, hf']

theorem selectOrganization_of_superAdmin (db : DB) (u : User) (og : Organization)
    (allowPW : Bool) (hsa : u.superAdmin = true)
    (hsel : superAdminCandidate db u = some og) :
    selectOrganization db u allowPW = .ok (db, og) := by
  simp [selectOrganization, hsa, hsel]

theorem selectedCandidate_mem (db : DB) (u : User) (og : Organization)
    (hsel : selectedCandidate db u = some og) :
    og ∈ findOrganizationWithLoginSupport db u := by
  unfold selectedCandidate at hsel
  dsimp only [] at hsel
  cases hf : (findOrganizationWithLoginSupport db u).find?
      (fun og => some og.id == u.defaultOrganizationId) with
  | some og' =>
    rw [hf] at hsel
    simp at hsel
    subst hsel
    exact List.mem_of_find?_eq_some hf
  | none =>
    rw [hf] at hsel
    cases hl : findOrganizationWithLoginSupport db u with
    | nil =>
      rw [hl] at hsel
      simp at hsel
    | cons a t =>
      rw [hl] at hsel
      simp at hsel
      subst hsel
      exact List.mem_cons_self a t

theorem mem_loginSupport_active (db : DB) (u : User) (og : Organization)
    (h : og ∈ findOrganizationWithLoginSupport db u) :
    ∃ m, m ∈ db.orgUsers ∧ m.userId = u.id ∧ m.organizationId = og.id ∧
      m.status = "active" := by
  unfold findOrganizationWithLoginSupport at h
  have hp := (List.mem_filter.mp h).2
  rw [Bool.and_eq_true] at hp
  obtain ⟨m, hm, hmp⟩ := List.any_eq_true.mp hp.1
  rw [Bool.and_eq_true, Bool.and_eq_true] at hmp
  exact ⟨m, hm, eq_of_beq hmp.1.1, eq_of_beq hmp.1.2, eq_of_beq hmp.2⟩

/-! ### Evaluation lemmas for the common-page path -/

theorem resolveTenant_mode3 (env : Env) (db : DB) (req : SignInReq) (s : String)
    (hdm : env.disableMultiWorkspace = false)
    (hcfg : req.configId = none) (hoid : req.organizationId = none)
    (hsso : req.ssoType = some s) :
    resolveTenant env db req =
      .ok ({ id := none, name := none, enableSignUp := !env.ssoDisableSignups,
             domain := env.ssoAcceptedDomains },
           { sso := s, enabled := instanceSSOEnabled env s }) := by
  unfold resolveTenant
  rw [hcfg, hsso, hoid, hdm]
  rfl

theorem signIn_commonPage_existing (env : Env) (db : DB) (req : SignInReq)
    (s : String) (ur : UserResponse) (u : User) (og : Organization)
    (hdm : env.disableMultiWorkspace = false)
    (hcfg : req.configId = none) (hoid : req.organizationId = none)
    (hsso : req.ssoType = some s)
    (hex : exchangeIdentity env req
      { sso := s, enabled := instanceSSOEnabled env s } = .ok (some ur))
    (hid : ur.userSSOId ≠ "") (hem : ur.email ≠ "")
    (hu : findUserByEmail db ur.email = some u)
    (harch : u.status ≠ "archived")
    (hdom : (isSuperAdmin (some u)
      || isValidDomain ur.email env.ssoAcceptedDomains) = true)
    (htok : u.invitationToken = none)
    (hsel : selectOrganization db u
        (isSuperAdmin (some u) || env.allowPersonalWorkspaceSetting == "true"
          || db.users.length == 0) = .ok (db, og))
    (hlic : env.licenseOk db = true) :
    signIn env db req = (db, .ok (generateLoginResultPayload u (orgViewOf og) true)) := by
  apply signIn_of_core_ok
  unfold signInCore
  rw [resolveTenant_mode3 env db req s hdm hcfg hoid hsso]
  have hcp : commonPagePath db (deriveFirstName ur) (some u)
      { id := none, name := none, enableSignUp := !env.ssoDisableSignups,
        domain := env.ssoAcceptedDomains }
      (isSuperAdmin (some u) || env.allowPersonalWorkspaceSetting == "true"
        || db.users.length == 0) = .ok (db, u, orgViewOf og) := by
    unfold commonPagePath
    dsimp only []
    rw [htok]
    simp [hsel]
  have hd2 : (!(isSuperAdmin (some u))
      && !(isValidDomain ur.email env.ssoAcceptedDomains)) = false := by
    rw [← Bool.not_or, hdom]
    rfl
  have harch2 : isArchived (some u) = false := by
    simp [isArchived, beq_false_of_ne harch]
  simp [hex, beq_false_of_ne hid, beq_false_of_ne hem, hu, harch2, hd2,
    hcfg, hoid, hsso, hdm, hcp, hlic]

theorem signIn_bootstrap (env : Env) (db : DB) (req : SignInReq)
    (s : String) (ur : UserResponse)
    (hdm : env.disableMultiWorkspace = false)
    (hcfg : req.configId = none) (hoid : req.organizationId = none)
    (hsso : req.ssoType = some s)
    (hex : exchangeIdentity env req
      { sso := s, enabled := instanceSSOEnabled env s } = .ok (some ur))
    (hid : ur.userSSOId ≠ "") (hem : ur.email ≠ "")
    (hglob : findUserByEmail db ur.email = none)
    (hsign : env.ssoDisableSignups = false)
    (hdomv : isValidDomain ur.email env.ssoAcceptedDomains = true)
    (hallow : (env.allowPersonalWorkspaceSetting == "true"
      || db.users.length == 0) = true)
    (hlic : ∀ d, env.licenseOk d = true) :
    signIn env db req =
      (bootstrapDB db ur,
       .ok (generateLoginResultPayload (bootstrapUser db ur)
         (orgViewOf (bootstrapOrg db)) true)) := by
  apply signIn_of_core_ok
  unfold signInCore
  rw [resolveTenant_mode3 env db req s hdm hcfg hoid hsso]
  have hcp : commonPagePath db (deriveFirstName ur) none
      { id := none, name := none, enableSignUp := !env.ssoDisableSignups,
        domain := env.ssoAcceptedDomains }
      (env.allowPersonalWorkspaceSetting == "true" || db.users.length == 0) =
      .ok (bootstrapDB db ur, bootstrapUser db ur, orgViewOf (bootstrapOrg db)) := by
    unfold commonPagePath
    dsimp only []
    simp [hsign, hallow, createOrganization, createUserRec, createMembership,
      bootstrapDB, bootstrapOrg, bootstrapUser, bootstrapMembership]
  simp [hex, beq_false_of_ne hid, beq_false_of_ne hem, hglob, isArchived,
    isSuperAdmin, hdomv, hcfg, hoid, hsso, hdm, hcp, hlic]

/-! ### C10 — the selection path performs no writes -/

/-- C10: on the instance-wide common-page path, an existing user with no
pending invitation token and a non-empty candidate list triggers no write
at all: the store returned is exactly the store passed in, and the session
is bound to the selected organization — the user's default organization
when among the SSO-login-supporting candidates, else the first candidate
(for a super-admin: the default organization when resolvable, else the
single organization of the system). -/
theorem claim_C10 :
    (∀ env db req s ur u og,
      env.disableMultiWorkspace = false →
      req.configId = none → req.organizationId = none → req.ssoType = some s →
      exchangeIdentity env req
        { sso := s, enabled := instanceSSOEnabled env s } = .ok (some ur) →
      ur.userSSOId ≠ "" → ur.email ≠ "" →
      findUserByEmail db ur.email = some u →
      u.status ≠ "archived" →
      (isSuperAdmin (some u) || isValidDomain ur.email env.ssoAcceptedDomains) = true →
      u.invitationToken = none →
      u.superAdmin = false →
      selectedCandidate db u = some og →
      env.licenseOk db = true →
      signIn env db req = (db, .ok (generateLoginResultPayload u (orgViewOf og) true))) ∧
    (∀ env db req s ur u og,
      env.disableMultiWorkspace = false →
      req.configId = none → req.organizationId = none → req.ssoType = some s →
      exchangeIdentity env req
        { sso := s, enabled := instanceSSOEnabled env s } = .ok (some ur) →
      ur.userSSOId ≠ "" → ur.email ≠ "" →
      findUserByEmail db ur.email = some u →
      u.status ≠ "archived" →
      (isSuperAdmin (some u) || isValidDomain ur.email env.ssoAcceptedDomains) = true →
      u.invitationToken = none →
      u.superAdmin = true →
      superAdminCandidate db u = some og →
      env.licenseOk db = true →
      signIn env db req = (db, .ok (generateLoginResultPayload u (orgViewOf og) true))) := by
  constructor
  · intro env db req s ur u og hdm hcfg hoid hsso hex hid hem hu harch hdom htok
      hsa hsel hlic
    exact signIn_commonPage_existing env db req s ur u og hdm hcfg hoid hsso hex
      hid hem hu harch hdom htok
      (selectOrganization_of_candidate db u og _ hsa hsel) hlic
  · intro env db req s ur u og hdm hcfg hoid hsso hex hid hem hu harch hdom htok
      hsa hsel hlic
    exact signIn_commonPage_existing env db req s ur u og hdm hcfg hoid hsso hex
      hid hem hu harch hdom htok
      (selectOrganization_of_superAdmin db u og _ hsa hsel) hlic

/-- Witness for C10: Fred, an existing user with an active membership in his
default organization 2 (which has enabled SSO), signs in from the common
page; the store is unchanged and the session is bound to organization 2. -/
theorem claim_C10_witness :
    signIn envSel dbSel googleCommonReq =
      (dbSel, .ok { userId := 1, email := "fred@x.com", firstName := "Fred",
                    lastName := "F", organizationId := some 2,
                    organizationName := some "W", superAdmin := false,
                    isSSOLogin := true }) :=
  (claim_C10).1 envSel dbSel googleCommonReq "google"
    { userSSOId := "sid", email := "fred@x.com", firstName := "Fred", lastName := "F" }
    { id := 1, email := "fred@x.com", firstName := "Fred", lastName := "F",
      status := "active", invitationToken := none,
      defaultOrganizationId := some 2, superAdmin := false }
    { id := 2, name := "W", enableSignUp := true, domain := "" }
    rfl rfl rfl rfl rfl (by decide) (by decide) rfl (by decide) rfl rfl rfl rfl rfl

/-! ### C1 — membership state of the pair bound to the session -/

/-- C1 counterexample: the bootstrap sign-in on an empty store (zero users,
sign-up enabled) succeeds and binds the session to the new user and the new
"Untitled workspace", yet the only membership in the resulting store — the
one linking that pair — has status `invited`, not active, and nothing was
activated in the call; so there is no (User, Organization) pair with an
active (or newly activated) membership, contradicting the claim on exactly
the just-in-time path it singles out. -/
theorem claim_C1_counterexample :
    (signIn baseEnv emptyDB googleCommonReq).2 =
      .ok { userId := 2, email := "alice@x.com", firstName := "Alice",
            lastName := "A", organizationId := some 1,
            organizationName := some "Untitled workspace",
            superAdmin := false, isSSOLogin := true } ∧
    (signIn baseEnv emptyDB googleCommonReq).1.orgUsers =
      [{ id := 3, userId := 2, organizationId := 1,
         status := "invited", isAdmin := false }] :=
  ⟨rfl, rfl⟩

/-- C1 (amended): every successful sign-in binds the session to exactly one
(User, Organization) pair — the payload's user and organization.  On the
organization-selection path for an existing non-super-admin user that pair
has an active membership already stored.  But on the just-in-time
workspace-creation paths the claim fails as stated: the bootstrap path
creates the membership with status `invited` and never activates it, so the
session is returned although no active membership for the bound pair
exists. -/
theorem claim_C1 :
    (∀ env db req s ur u og,
      env.disableMultiWorkspace = false →
      req.configId = none → req.organizationId = none → req.ssoType = some s →
      exchangeIdentity env req
        { sso := s, enabled := instanceSSOEnabled env s } = .ok (some ur) →
      ur.userSSOId ≠ "" → ur.email ≠ "" →
      findUserByEmail db ur.email = some u →
      u.status ≠ "archived" →
      (isSuperAdmin (some u) || isValidDomain ur.email env.ssoAcceptedDomains) = true →
      u.invitationToken = none →
      u.superAdmin = false →
      selectedCandidate db u = some og →
      env.licenseOk db = true →
      signIn env db req = (db, .ok (generateLoginResultPayload u (orgViewOf og) true)) ∧
      ∃ m, m ∈ db.orgUsers ∧ m.userId = u.id ∧ m.organizationId = og.id ∧
        m.status = "active") ∧
    (∀ env db req s ur,
      env.disableMultiWorkspace = false →
      req.configId = none → req.organizationId = none → req.ssoType = some s →
      exchangeIdentity env req
        { sso := s, enabled := instanceSSOEnabled env s } = .ok (some ur) →
      ur.userSSOId ≠ "" → ur.email ≠ "" →
      findUserByEmail db ur.email = none →
      env.ssoDisableSignups = false →
      isValidDomain ur.email env.ssoAcceptedDomains = true →
      (env.allowPersonalWorkspaceSetting == "true" || db.users.length == 0) = true →
      (∀ d, env.licenseOk d = true) →
      ∃ db1 u og m,
        signIn env db req = (db1, .ok (generateLoginResultPayload u (orgViewOf og) true)) ∧
        db1.orgUsers = db.orgUsers ++ [m] ∧
        m.userId = u.id ∧ m.organizationId = og.id ∧
        m.status = "invited" ∧ m.isAdmin = false ∧
        u.email = ur.email) := by
  constructor
  · intro env db req s ur u og hdm hcfg hoid hsso hex hid hem hu harch hdom htok
      hsa hsel hlic
    refine ⟨signIn_commonPage_existing env db req s ur u og hdm hcfg hoid hsso hex
      hid hem hu harch hdom htok
      (selectOrganization_of_candidate db u og _ hsa hsel) hlic, ?_⟩
    exact mem_loginSupport_active db u og (selectedCandidate_mem db u og hsel)
  · intro env db req s ur hdm hcfg hoid hsso hex hid hem hglob hsign hdomv hallow hlic
    exact ⟨bootstrapDB db ur, bootstrapUser db ur, bootstrapOrg db,
      bootstrapMembership db,
      signIn_bootstrap env db req s ur hdm hcfg hoid hsso hex hid hem hglob hsign
        hdomv hallow hlic,
      rfl, rfl, rfl, rfl, rfl, deriveFirstName_email ur⟩

/-- Witness for C1: the selection conjunct at Fred's store — the session is
bound to (Fred, organization 2) and an active membership for that pair is
in the (unchanged) store. -/
theorem claim_C1_witness :
    (signIn envSel dbSel googleCommonReq =
      (dbSel, .ok { userId := 1, email := "fred@x.com", firstName := "Fred",
                    lastName := "F", organizationId := some 2,
                    organizationName := some "W", superAdmin := false,
                    isSSOLogin := true }) ∧
     ∃ m, m ∈ dbSel.orgUsers ∧ m.userId = 1 ∧ m.organizationId = 2 ∧
       m.status = "active") :=
  (claim_C1).1 envSel dbSel googleCommonReq "google"
    { userSSOId := "sid", email := "fred@x.com", firstName := "Fred", lastName := "F" }
    { id := 1, email := "fred@x.com", firstName := "Fred", lastName := "F",
      status := "active", invitationToken := none,
      defaultOrganizationId := some 2, superAdmin := false }
    { id := 2, name := "W", enableSignUp := true, domain := "" }
    rfl rfl rfl rfl rfl (by decide) (by decide) rfl (by decide) rfl rfl rfl rfl rfl

end Oauth
